import Mathlib

/-!
Verification of the OS-abstraction layer of a terminal multiplexer.

This file gives a shallow embedding of the relevant parts of the source:

* `zellij-server/src/terminal_bytes.rs` — the `TerminalBytes::listen` loop
  that drains a PTY reader and forwards byte batches plus render
  notifications to the screen sink;
* `zellij-os/src/pty.rs` — `PtyHandle` (resize, get_size, write, drain,
  try_clone_reader) and `spawn_in_pty` with its detached exit-watcher;
* `zellij-os/src/process.rs` — `signal_process` on POSIX;
* `zellij-os/src/signals.rs` — the async and blocking signal bridges.

OS-level effects (the actual read syscalls, the sink channel, the kernel
PTY state, the `kill(2)` call) are modelled as explicit oracle parameters:
a trace of read results, a per-send success function for the sink, a
stored window size for the PTY primitive, and a function giving the OS
response to a kill request.  Machine integers that only pass through are
modelled as `Nat`; the one place the source casts (`exit_code() as i32`)
is modelled with an explicit wrap.
-/

namespace Zellij

/-! ### terminal_bytes.rs: the TerminalBytes::listen loop -/

/-- Kind of an `std::io::Error` returned by a read.  The source never
inspects the kind (every error takes the same branch), but the spec
distinguishes would-block from other errors, so the embedding keeps it. -/
inductive IoErrorKind
  | wouldBlock
  | other
deriving DecidableEq

/-- One result of `self.async_reader.read(&mut buf).await`:
`ok bytes` is `Ok(n)` with the `n` bytes read (`ok []` is `Ok(0)`, i.e.
end of stream), `err k` is `Err(e)` with `e.kind() = k`. -/
inductive ReadResult
  | ok (bytes : List Nat)
  | err (kind : IoErrorKind)
deriving DecidableEq

/-- The screen instructions this loop sends:
`ScreenInstruction::PtyBytes(terminal_id, bytes)` and
`ScreenInstruction::Render`. -/
inductive ScreenInstruction
  | ptyBytes (terminal_id : Nat) (bytes : List Nat)
  | render
deriving DecidableEq

/-- Context string attached when a sink send inside the loop fails
(`err_context` in `TerminalBytes::listen`). -/
def listenErrContext : String := "failed to listen for bytes from PTY"

instance {ε α : Type} [DecidableEq ε] [DecidableEq α] : DecidableEq (Except ε α) :=
  fun a b =>
    match a, b with
    | Except.ok x, Except.ok y => decidable_of_iff (x = y) (by simp)
    | Except.ok _, Except.error _ => isFalse (fun h => Except.noConfusion h)
    | Except.error _, Except.ok _ => isFalse (fun h => Except.noConfusion h)
    | Except.error e, Except.error f => decidable_of_iff (e = f) (by simp)

/-- Observable outcome of one `TerminalBytes::listen` call:
`messages` are the sink sends attempted via `async_send_to_screen`, in
order; `logged` are the read errors passed to `log::error!`; `result`
is the value `listen` returns. -/
structure ListenOut where
  messages : List ScreenInstruction
  logged : List IoErrorKind
  result : Except String Unit
deriving DecidableEq

/-- The body of `TerminalBytes::listen` (terminal_bytes.rs lines 83-121),
embedded over a finite trace of read results (the reads delivered before
the stream closed; an exhausted trace behaves like end-of-stream) and a
sink oracle giving the success of the i-th sink send.  Mirrors the
source match arm by match arm:

* `Ok(0)` — break out of the loop;
* `Err(err)` — `log::error!` the error and break (the error kind is not
  inspected and nothing is escalated);
* `Ok(n_bytes)` — send `PtyBytes(terminal_id, bytes)`; a send failure
  returns `Err` with `err_context` immediately, a success continues.

After the loop, one `Render` send is attempted and its result discarded
(`let _ = ...`), and `listen` returns `Ok(())`.  The `debug_to_file`
side channel (active only with the debug flag) is omitted: it touches
neither the sink nor the result. -/
def listenGo (tid : Nat) (sink : Nat → Bool) :
    List ReadResult → Nat → ListenOut
  | [], _ =>
      { messages := [ScreenInstruction.render], logged := [], result := Except.ok () }
  | ReadResult.ok [] :: _, _ =>
      { messages := [ScreenInstruction.render], logged := [], result := Except.ok () }
  | ReadResult.err e :: _, _ =>
      { messages := [ScreenInstruction.render], logged := [e], result := Except.ok () }
  | ReadResult.ok (b :: bs) :: rest, k =>
      if sink k then
        let out := listenGo tid sink rest (k + 1)
        { out with messages := ScreenInstruction.ptyBytes tid (b :: bs) :: out.messages }
      else
        { messages := [ScreenInstruction.ptyBytes tid (b :: bs)],
          logged := [],
          result := Except.error listenErrContext }

/-- `TerminalBytes::listen` applied to a read trace, with sink sends
numbered from 0. -/
def listen (tid : Nat) (reads : List ReadResult) (sink : Nat → Bool) : ListenOut :=
  listenGo tid sink reads 0

/-! ### pty.rs: PtySize, PtyHandle, spawn_in_pty -/

/-- Terminal size in rows and columns with optional pixel dimensions
(pty.rs struct `PtySize`, all fields u16; the values only pass through,
so they are modelled as `Nat`). -/
structure PtySize where
  rows : Nat
  cols : Nat
  pixel_width : Nat
  pixel_height : Nat
deriving DecidableEq

/-- The `portable_pty::PtySize` struct the wrapper converts to and from
(same four u16 fields). -/
structure PortablePtySize where
  rows : Nat
  cols : Nat
  pixel_width : Nat
  pixel_height : Nat
deriving DecidableEq

/-- Modelled from the spec: the `portable_pty` `MasterPty` OS primitive is
not part of this repository.  Per the spec, the OS primitive stores the
window size set by the last resize and reports it on a size query
(rows/cols positivity is enforced by the primitive, not re-validated
here).  `healthy` says whether master-side operations succeed (a released
or broken OS resource makes them fail). -/
structure MasterPty where
  size : PortablePtySize
  healthy : Bool

/-- Modelled from the spec: `MasterPty::resize` stores the requested size
in the OS primitive, failing when the resource is unhealthy. -/
def MasterPty.resizeOp (m : MasterPty) (s : PortablePtySize) : Except String MasterPty :=
  if m.healthy then Except.ok { m with size := s } else Except.error "resize ioctl failed"

/-- Modelled from the spec: `MasterPty::get_size` reports the stored
size, failing when the resource is unhealthy. -/
def MasterPty.sizeQuery (m : MasterPty) : Except String PortablePtySize :=
  if m.healthy then Except.ok m.size else Except.error "size ioctl failed"

/-- Behaviour of the boxed writer returned by `take_writer`: the response
of the underlying `std::io::Write` to a write of the given bytes (number
of bytes accepted, or an io error) and to a flush. -/
structure PtyWriter where
  write_result : List Nat → Except String Nat
  flush_result : Except String Unit

/-- Error message produced by `write`/`drain` when the writer `Option`
is `None` (pty.rs lines 61-76, context string on `as_mut()`). -/
def alreadyTakenMsg : String := "PTY writer has already been taken"

/-- A handle to the master side of a PTY (pty.rs struct `PtyHandle`):
the master resource plus `writer: Option<Box<dyn Write + Send>>`. -/
structure PtyHandle where
  master : MasterPty
  writer : Option PtyWriter

/-- PtyHandle::resize (pty.rs lines 25-35): converts the four fields to
`portable_pty::PtySize`, delegates to the master, and annotates a
failure.  The Rust method mutates kernel state through `&self`; the
embedding threads that state by returning the updated handle. -/
def PtyHandle.resize (h : PtyHandle) (size : PtySize) : Except String PtyHandle :=
  match h.master.resizeOp
      { rows := size.rows, cols := size.cols,
        pixel_width := size.pixel_width, pixel_height := size.pixel_height } with
  | Except.ok m => Except.ok { h with master := m }
  | Except.error e => Except.error ("failed to resize PTY: " ++ e)

/-- PtyHandle::get_size (pty.rs lines 38-50): queries the master and
converts the four fields back. -/
def PtyHandle.get_size (h : PtyHandle) : Except String PtySize :=
  match h.master.sizeQuery with
  | Except.ok s =>
      Except.ok
        { rows := s.rows, cols := s.cols,
          pixel_width := s.pixel_width, pixel_height := s.pixel_height }
  | Except.error e => Except.error ("failed to get PTY size: " ++ e)

/-- PtyHandle::try_clone_reader (pty.rs lines 53-58): delegates to the
master; the reader itself is consumed elsewhere (by `TerminalBytes`), so
only success or failure is observable here.  Takes `&self`: the handle,
in particular its writer field, is untouched. -/
def PtyHandle.try_clone_reader (h : PtyHandle) : Except String Unit :=
  if h.master.healthy then Except.ok ()
  else Except.error "failed to clone PTY reader"

/-- PtyHandle::write (pty.rs lines 61-67): `self.writer.as_mut()`
errors with the already-taken context when the writer is `None`;
otherwise the write is delegated to the writer.  The writer `Option` is
never reassigned, so the handle keeps its writer. -/
def PtyHandle.write (h : PtyHandle) (buf : List Nat) : Except String (Nat × PtyHandle) :=
  match h.writer with
  | none => Except.error alreadyTakenMsg
  | some w =>
      match w.write_result buf with
      | Except.ok n => Except.ok (n, h)
      | Except.error _ => Except.error "failed to write to PTY"

/-- PtyHandle::drain (pty.rs lines 70-76): same `as_mut()` guard, then
a flush. -/
def PtyHandle.drain (h : PtyHandle) : Except String Unit :=
  match h.writer with
  | none => Except.error alreadyTakenMsg
  | some w =>
      match w.flush_result with
      | Except.ok _ => Except.ok ()
      | Except.error _ => Except.error "failed to drain PTY"

/-- Exit status reported by `child.wait()` (portable_pty `ExitStatus`:
`success()` and the u32 `exit_code()`). -/
structure ExitStatus where
  success : Bool
  exit_code : Nat
deriving DecidableEq

/-- The cast `status.exit_code() as i32` in the exit watcher: a u32
reinterpreted as an i32, wrapping values at and above 2^31. -/
def u32_as_i32 (n : Nat) : Int :=
  if n % 2 ^ 32 < 2 ^ 31 then (n % 2 ^ 32 : Int) else (n % 2 ^ 32 : Int) - 2 ^ 32

/-- Body of the exit-monitoring thread (pty.rs lines 152-167): maps the
result of `child.wait()` to the value passed to `quit_cb` — `Some(0)` on
success, `Some(exit_code as i32)` on reported non-success, `None` (after
a `log::error!`) when waiting itself failed. -/
def watcherOutcome (wait_result : Except String ExitStatus) : Option Int :=
  match wait_result with
  | Except.ok status =>
      if status.success then some 0 else some (u32_as_i32 status.exit_code)
  | Except.error _ => none

/-- The spawned child as seen by `spawn_in_pty`: its observable process
id (`child.process_id()`) and the response of `child.wait()` in the
watcher thread. -/
structure SpawnedChild where
  process_id : Option Nat
  wait_result : Except String ExitStatus

/-- The relevant state of a `portable_pty::CommandBuilder` built by
`spawn_in_pty` (pty.rs lines 116-132): program, args, the cwd if one was
applied, env overrides. -/
structure CommandBuilder where
  program : String
  args : List String
  cwd : Option String
  env : List (String × String)
deriving DecidableEq

/-- Oracles for the OS effects of `spawn_in_pty`: the pty system's
response to `openpty` (the master half; the slave half is observable
only through `spawn_command` and is dropped right after the spawn),
the filesystem predicates behind `cwd.exists()` and `cwd.is_dir()`,
the slave's response to `spawn_command` on the built command, and the
master's response to `take_writer`. -/
structure SpawnEnv where
  openpty_result : PortablePtySize → Except String MasterPty
  path_exists : String → Bool
  path_is_dir : String → Bool
  spawn_command : CommandBuilder → Except String SpawnedChild
  take_writer : Except String PtyWriter

/-- Result of spawning a command in a PTY (pty.rs struct `SpawnResult`). -/
structure SpawnResult where
  pty : PtyHandle
  child_pid : Option Nat

/-- The command-building phase of `spawn_in_pty` (pty.rs lines 116-132):
a provided cwd is applied only when `cwd.exists() && cwd.is_dir()`;
otherwise a `log::error!` is emitted and the command is left without a
cwd.  Env overrides are applied afterwards either way. -/
def buildCommand (cmd : String) (args : List String) (cwd : Option String)
    (env : List (String × String)) (E : SpawnEnv) : CommandBuilder :=
  let c0 : CommandBuilder := { program := cmd, args := args, cwd := none, env := [] }
  let c1 :=
    match cwd with
    | some d => if E.path_exists d && E.path_is_dir d then { c0 with cwd := some d } else c0
    | none => c0
  { c1 with env := env }

/-- spawn_in_pty (pty.rs lines 93-176): opens the PTY pair at the
requested size, builds the command (cwd validation included), spawns the
child on the slave side, records the child pid, drops the slave, takes
the single writer from the master, starts the detached exit watcher, and
returns the handle (writer installed) plus the pid.  Each fallible step
returns early with its context string.  The second component of the
result is the sequence of `quit_cb` invocations the detached watcher
performs — by construction a single call carrying `watcherOutcome` of
the wait result. -/
def spawn_in_pty (cmd : String) (args : List String) (cwd : Option String)
    (env : List (String × String)) (size : PtySize) (E : SpawnEnv) :
    Except String (SpawnResult × List (Option Int)) :=
  match E.openpty_result
      { rows := size.rows, cols := size.cols,
        pixel_width := size.pixel_width, pixel_height := size.pixel_height } with
  | Except.error e => Except.error ("failed to open PTY: " ++ e)
  | Except.ok master =>
      let command := buildCommand cmd args cwd env E
      match E.spawn_command command with
      | Except.error e => Except.error ("failed to spawn command " ++ cmd ++ ": " ++ e)
      | Except.ok child =>
          match E.take_writer with
          | Except.error e => Except.error ("failed to take PTY writer: " ++ e)
          | Except.ok writer =>
              Except.ok
                ({ pty := { master := master, writer := some writer },
                   child_pid := child.process_id },
                 [watcherOutcome child.wait_result])

/-! ### process.rs: signal_process on POSIX -/

/-- Logical signals (process.rs enum `ProcessSignal`). -/
inductive ProcessSignal
  | HangUp
  | Kill
  | Interrupt
deriving DecidableEq

/-- The POSIX signals the unix implementation can select
(`nix::sys::signal::Signal` values used by the match). -/
inductive NixSignal
  | SIGHUP
  | SIGKILL
  | SIGINT
deriving DecidableEq

/-- Errors `nix::sys::signal::kill` can report for the cases the spec
names: no such process (already exited), or no permission. -/
inductive KillError
  | ESRCH
  | EPERM
deriving DecidableEq

/-- The match in the unix `signal_process` (process.rs lines 20-24). -/
def nix_signal_of : ProcessSignal → NixSignal
  | ProcessSignal.HangUp => NixSignal.SIGHUP
  | ProcessSignal.Kill => NixSignal.SIGKILL
  | ProcessSignal.Interrupt => NixSignal.SIGINT

/-- Debug rendering of a `ProcessSignal` as in the Rust context string. -/
def ProcessSignal.debugName : ProcessSignal → String
  | ProcessSignal.HangUp => "HangUp"
  | ProcessSignal.Kill => "Kill"
  | ProcessSignal.Interrupt => "Interrupt"

/-- The unix `signal_process` (process.rs lines 16-28): maps the logical
signal, calls `kill(pid, signal)` (modelled by the oracle giving the OS
response), and turns a kill failure into an annotated error result — a
total function, never a panic. -/
def signal_process (pid : Nat) (signal : ProcessSignal)
    (kill : Nat → NixSignal → Except KillError Unit) : Except String Unit :=
  match kill pid (nix_signal_of signal) with
  | Except.ok _ => Except.ok ()
  | Except.error _ =>
      Except.error ("failed to send " ++ signal.debugName ++ " to pid " ++ toString pid)

/-! ### signals.rs: the two OsSignalBridge personalities on POSIX -/

/-- Normalized OS notification events (signals.rs enum `SignalEvent`). -/
inductive SignalEvent
  | Resize
  | Quit
deriving DecidableEq

/-- The five signal streams the unix `AsyncSignalListener` races in its
`select!`; one of them fires per call. -/
inductive UnixSignalSource
  | sigwinch
  | sigterm
  | sigint
  | sigquit
  | sighup
deriving DecidableEq

/-- The unix `AsyncSignalListener::recv` (signals.rs lines 43-51): the
select arm of the source that fired maps its delivery
(`Option<()>` from `Signal::recv`, `none` when the stream is closed)
through the arm of the matching signal — window change to `Resize`, each
of terminate/interrupt/quit/hangup to `Quit`.  One call yields at most
one event. -/
def AsyncSignalListener.recv (fired : UnixSignalSource) (delivery : Option Unit) :
    Option SignalEvent :=
  match fired with
  | UnixSignalSource.sigwinch => delivery.map (fun _ => SignalEvent.Resize)
  | UnixSignalSource.sigterm => delivery.map (fun _ => SignalEvent.Quit)
  | UnixSignalSource.sigint => delivery.map (fun _ => SignalEvent.Quit)
  | UnixSignalSource.sigquit => delivery.map (fun _ => SignalEvent.Quit)
  | UnixSignalSource.sighup => delivery.map (fun _ => SignalEvent.Quit)

/-- Raw signals as delivered by `signal_hook`: the five registered ones,
plus any other signal number (skipped by the match). -/
inductive RawSignal
  | SIGWINCH
  | SIGTERM
  | SIGINT
  | SIGQUIT
  | SIGHUP
  | other (n : Nat)
deriving DecidableEq

/-- The unix `BlockingSignalIterator::next` (signals.rs lines 147-157)
over the pending-signal stream, modelled as the finite list of signals
the blocking `forever()` iterator delivers: the first registered signal
produces exactly one event (`SIGWINCH` a `Resize`, the four termination
signals a `Quit`), unrecognized signals are skipped, and an exhausted
stream gives `none`. -/
def BlockingSignalIterator.next : List RawSignal → Option SignalEvent
  | [] => none
  | RawSignal.SIGWINCH :: _ => some SignalEvent.Resize
  | RawSignal.SIGTERM :: _ => some SignalEvent.Quit
  | RawSignal.SIGINT :: _ => some SignalEvent.Quit
  | RawSignal.SIGQUIT :: _ => some SignalEvent.Quit
  | RawSignal.SIGHUP :: _ => some SignalEvent.Quit
  | RawSignal.other _ :: rest => BlockingSignalIterator.next rest

/-! ### Concrete sample values used by witness theorems -/

/-- A writer whose underlying io accepts every write in full. -/
def sampleWriter : PtyWriter :=
  { write_result := fun b => Except.ok b.length, flush_result := Except.ok () }

/-- A child that exits cleanly with pid 42. -/
def sampleChild : SpawnedChild :=
  { process_id := some 42,
    wait_result := Except.ok { success := true, exit_code := 0 } }

/-- A healthy master at 24x80. -/
def sampleMaster : MasterPty :=
  { size := { rows := 24, cols := 80, pixel_width := 0, pixel_height := 0 },
    healthy := true }

/-- A spawn environment in which every OS step succeeds. -/
def sampleEnv : SpawnEnv :=
  { openpty_result := fun s => Except.ok { size := s, healthy := true },
    path_exists := fun _ => true,
    path_is_dir := fun _ => true,
    spawn_command := fun _ => Except.ok sampleChild,
    take_writer := Except.ok sampleWriter }

/-- A spawn environment in which no path exists (for the cwd-fallback
witness); every other OS step succeeds. -/
def noDirEnv : SpawnEnv :=
  { sampleEnv with path_exists := fun _ => false, path_is_dir := fun _ => false }

/-- The initial size used by the sample spawns. -/
def sampleSize : PtySize := { rows := 24, cols := 80, pixel_width := 0, pixel_height := 0 }

/-- The spawn result `spawn_in_pty` produces under `sampleEnv`. -/
def sampleSpawnResult : SpawnResult :=
  { pty := { master := sampleMaster, writer := some sampleWriter },
    child_pid := some 42 }

/-- A handle whose writer was already taken (writer field `None`). -/
def takenHandle : PtyHandle := { master := sampleMaster, writer := none }

/-- A healthy handle with its writer still installed. -/
def sampleHandle : PtyHandle := { master := sampleMaster, writer := some sampleWriter }

/-! ### Theorems -/

/-- C1, counterexample to the claim as stated.  With a would-block read
error followed by readable data, `TerminalBytes::listen` does not retry
the read: the loop exits and the later bytes are never forwarded (the
only sink message is the final render).  And with any other read error,
`listen` still returns `Ok(())` — the error is logged, not reported to
the caller as an error result. -/
theorem listen_c1_counterexample :
    (listen 7 [ReadResult.err IoErrorKind.wouldBlock,
        ReadResult.ok [104], ReadResult.ok []] (fun _ => true)).messages
      = [ScreenInstruction.render]
    ∧ ScreenInstruction.ptyBytes 7 [104] ∉
        (listen 7 [ReadResult.err IoErrorKind.wouldBlock,
          ReadResult.ok [104], ReadResult.ok []] (fun _ => true)).messages
    ∧ (listen 7 [ReadResult.err IoErrorKind.other] (fun _ => true)).result
        = Except.ok () := by decide

/-- C1 (amended): in `TerminalBytes::listen`, every read error —
would-block included — terminates the loop at that point: the error is
logged, the one final render attempt is made, and `listen` returns
`Ok(())`.  No read error is escalated to the caller as an error result,
and no read error is retried. -/
theorem listen_read_error_terminates_loop (tid k : Nat) (sink : Nat → Bool)
    (e : IoErrorKind) (rest : List ReadResult) :
    listenGo tid sink (ReadResult.err e :: rest) k
      = { messages := [ScreenInstruction.render], logged := [e],
          result := Except.ok () } := rfl

/-- C2, evaluation at the failing input: two non-empty reads followed by
end of stream, with every sink send succeeding.  The loop emits the two
bytes messages and then a single render notification after the loop
exits, so the first bytes message is not followed by a render-due
notification — contrary both to the claim and to the comment inside
`TerminalBytes::listen` that a render instruction is sent to screen
immediately after bytes are sent to parse. -/
theorem listen_c2_eval_at_failing_input :
    (listen 3 [ReadResult.ok [104, 105], ReadResult.ok [33], ReadResult.ok []]
        (fun _ => true)).messages
      = [ScreenInstruction.ptyBytes 3 [104, 105], ScreenInstruction.ptyBytes 3 [33],
         ScreenInstruction.render]
    ∧ ((listen 3 [ReadResult.ok [104, 105], ReadResult.ok [33], ReadResult.ok []]
        (fun _ => true)).messages)[1]? ≠ some ScreenInstruction.render := by decide

/-- C4: on loop exit (here: end of stream reached while scanning the
trace, or the trace exhausted) exactly one final render-due send is
attempted and the result is `Ok(())` whatever the sink does — the final
attempt's failure is never escalated — whereas a failed sink delivery of
a `PtyBytes` message inside the loop stops the loop at once and is
escalated to the caller as an error carrying the listen context. -/
theorem listen_final_render_best_effort_and_sink_failure_escalates
    (tid k : Nat) (sink : Nat → Bool) (b : Nat) (bs : List Nat)
    (rest : List ReadResult) (hs : sink k = false) :
    (∀ s : Nat → Bool,
        listenGo tid s (ReadResult.ok [] :: rest) k
          = { messages := [ScreenInstruction.render], logged := [],
              result := Except.ok () }
        ∧ listenGo tid s [] k
          = { messages := [ScreenInstruction.render], logged := [],
              result := Except.ok () })
    ∧ listenGo tid sink (ReadResult.ok (b :: bs) :: rest) k
        = { messages := [ScreenInstruction.ptyBytes tid (b :: bs)], logged := [],
            result := Except.error listenErrContext } := by
  refine ⟨fun s => ⟨rfl, rfl⟩, ?_⟩
  simp [listenGo, hs]

/-- C4 witness: the theorem at terminal id 2, send index 0, an
all-failing sink, and the single-byte read 104. -/
theorem listen_final_render_best_effort_witness :
    (∀ s : Nat → Bool,
        listenGo 2 s [ReadResult.ok []] 0
          = { messages := [ScreenInstruction.render], logged := [],
              result := Except.ok () }
        ∧ listenGo 2 s [] 0
          = { messages := [ScreenInstruction.render], logged := [],
              result := Except.ok () })
    ∧ listenGo 2 (fun _ => false) [ReadResult.ok [104]] 0
        = { messages := [ScreenInstruction.ptyBytes 2 [104]], logged := [],
            result := Except.error listenErrContext } :=
  listen_final_render_best_effort_and_sink_failure_escalates 2 0 (fun _ => false)
    104 [] [] rfl

/-- C3: the detached exit watcher started by a successful `spawn_in_pty`
invokes the completion handler exactly once, with the outcome computed
from the child wait: `Some(0)` when the wait reports success, `Some` of
the reported exit code (cast to i32) on non-success, and `None` exactly
when the wait itself failed. -/
theorem exit_watcher_invokes_handler_exactly_once
    (cmd : String) (args : List String) (cwd : Option String)
    (env : List (String × String)) (size : PtySize) (E : SpawnEnv)
    (child : SpawnedChild) (r : SpawnResult) (calls : List (Option Int))
    (hspawn : spawn_in_pty cmd args cwd env size E = Except.ok (r, calls))
    (hchild : E.spawn_command (buildCommand cmd args cwd env E) = Except.ok child) :
    calls = [watcherOutcome child.wait_result]
    ∧ calls.length = 1
    ∧ (∀ st : ExitStatus, st.success = true →
        watcherOutcome (Except.ok st) = some 0)
    ∧ (∀ st : ExitStatus, st.success = false →
        watcherOutcome (Except.ok st) = some (u32_as_i32 st.exit_code))
    ∧ (∀ e : String, watcherOutcome (Except.error e) = none) := by
  have hcalls : calls = [watcherOutcome child.wait_result] := by
    unfold spawn_in_pty at hspawn
    cases hopen : E.openpty_result
        { rows := size.rows, cols := size.cols,
          pixel_width := size.pixel_width, pixel_height := size.pixel_height } with
    | error e => rw [hopen] at hspawn; exact absurd hspawn (by simp)
    | ok master =>
        rw [hopen] at hspawn
        simp only [hchild] at hspawn
        cases hw : E.take_writer with
        | error e => rw [hw] at hspawn; exact absurd hspawn (by simp)
        | ok w =>
            rw [hw] at hspawn
            simp only [Except.ok.injEq, Prod.mk.injEq] at hspawn
            exact hspawn.2.symm
  refine ⟨hcalls, by rw [hcalls]; rfl, fun st hst => ?_, fun st hst => ?_, fun e => rfl⟩
  · simp [watcherOutcome, hst]
  · simp [watcherOutcome, hst]

/-- C3 witness: the theorem at the all-success sample environment, whose
child exits cleanly, so the single handler invocation carries
`Some(0)`. -/
theorem exit_watcher_invokes_handler_exactly_once_witness :
    ([some (0 : Int)] : List (Option Int)) = [watcherOutcome sampleChild.wait_result]
    ∧ ([some (0 : Int)] : List (Option Int)).length = 1
    ∧ (∀ st : ExitStatus, st.success = true →
        watcherOutcome (Except.ok st) = some 0)
    ∧ (∀ st : ExitStatus, st.success = false →
        watcherOutcome (Except.ok st) = some (u32_as_i32 st.exit_code))
    ∧ (∀ e : String, watcherOutcome (Except.error e) = none) :=
  exit_watcher_invokes_handler_exactly_once "sh" [] none [] sampleSize sampleEnv
    sampleChild sampleSpawnResult [some 0] rfl rfl

/-- C5: on POSIX, `signal_process` maps `HangUp` to `SIGHUP`, `Kill` to
`SIGKILL` and `Interrupt` to `SIGINT`; a succeeding `kill` on the given
pid with the mapped signal makes the call return `Ok`, and whenever the
OS `kill` fails — no such process (already exited) or no permission —
the call returns an annotated error value (the embedding is a total
function: there is no panic path). -/
theorem signal_process_posix_mapping (pid : Nat) (signal : ProcessSignal)
    (kill : Nat → NixSignal → Except KillError Unit) (e : KillError)
    (hfail : kill pid (nix_signal_of signal) = Except.error e) :
    nix_signal_of ProcessSignal.HangUp = NixSignal.SIGHUP
    ∧ nix_signal_of ProcessSignal.Kill = NixSignal.SIGKILL
    ∧ nix_signal_of ProcessSignal.Interrupt = NixSignal.SIGINT
    ∧ (∀ k2 : Nat → NixSignal → Except KillError Unit,
        k2 pid (nix_signal_of signal) = Except.ok () →
        signal_process pid signal k2 = Except.ok ())
    ∧ signal_process pid signal kill
        = Except.error ("failed to send " ++ signal.debugName ++ " to pid "
            ++ toString pid) := by
  refine ⟨rfl, rfl, rfl, fun k2 hk2 => ?_, ?_⟩
  · simp [signal_process, hk2]
  · simp [signal_process, hfail]

/-- C5 witness: the theorem at pid 12345 with an OS in which the target
process no longer exists, for the `Kill` signal. -/
theorem signal_process_posix_mapping_witness :
    nix_signal_of ProcessSignal.HangUp = NixSignal.SIGHUP
    ∧ nix_signal_of ProcessSignal.Kill = NixSignal.SIGKILL
    ∧ nix_signal_of ProcessSignal.Interrupt = NixSignal.SIGINT
    ∧ (∀ k2 : Nat → NixSignal → Except KillError Unit,
        k2 12345 (nix_signal_of ProcessSignal.Kill) = Except.ok () →
        signal_process 12345 ProcessSignal.Kill k2 = Except.ok ())
    ∧ signal_process 12345 ProcessSignal.Kill
          (fun _ _ => Except.error KillError.ESRCH)
        = Except.error ("failed to send " ++ ProcessSignal.Kill.debugName
            ++ " to pid " ++ toString 12345) :=
  signal_process_posix_mapping 12345 ProcessSignal.Kill
    (fun _ _ => Except.error KillError.ESRCH) KillError.ESRCH rfl

/-- C6: on POSIX, both bridge personalities map a window-change trigger
to exactly one `Resize` event and each of terminate, interrupt, quit and
hangup to exactly one `Quit` event: one `recv` call on the async
listener returns exactly the mapped event for the source that fired, and
one `next` call on the blocking iterator returns exactly the mapped
event for the first registered pending signal, whatever follows it.  No
other event is produced for the trigger. -/
theorem signal_bridges_map_triggers_one_to_one
    (d : Unit) (rest : List RawSignal) :
    AsyncSignalListener.recv UnixSignalSource.sigwinch (some d) = some SignalEvent.Resize
    ∧ AsyncSignalListener.recv UnixSignalSource.sigterm (some d) = some SignalEvent.Quit
    ∧ AsyncSignalListener.recv UnixSignalSource.sigint (some d) = some SignalEvent.Quit
    ∧ AsyncSignalListener.recv UnixSignalSource.sigquit (some d) = some SignalEvent.Quit
    ∧ AsyncSignalListener.recv UnixSignalSource.sighup (some d) = some SignalEvent.Quit
    ∧ BlockingSignalIterator.next (RawSignal.SIGWINCH :: rest) = some SignalEvent.Resize
    ∧ BlockingSignalIterator.next (RawSignal.SIGTERM :: rest) = some SignalEvent.Quit
    ∧ BlockingSignalIterator.next (RawSignal.SIGINT :: rest) = some SignalEvent.Quit
    ∧ BlockingSignalIterator.next (RawSignal.SIGQUIT :: rest) = some SignalEvent.Quit
    ∧ BlockingSignalIterator.next (RawSignal.SIGHUP :: rest) = some SignalEvent.Quit :=
  ⟨rfl, rfl, rfl, rfl, rfl, rfl, rfl, rfl, rfl, rfl⟩

/-- C7: on a handle whose writer was already taken (writer field
`None`), both `write` and `drain` return the explicit already-taken
error value — the embedding is total, so neither panics, and neither
conjures a duplicate writer: the failing calls return no writer at
all. -/
theorem write_drain_fail_after_writer_taken (h : PtyHandle) (buf : List Nat)
    (hw : h.writer = none) :
    h.write buf = Except.error alreadyTakenMsg
    ∧ h.drain = Except.error alreadyTakenMsg := by
  constructor
  · unfold PtyHandle.write; rw [hw]
  · unfold PtyHandle.drain; rw [hw]

/-- C7 witness: the theorem on the concrete taken handle with the
single-byte buffer 104. -/
theorem write_drain_fail_after_writer_taken_witness :
    takenHandle.writer = none
    ∧ (takenHandle.write [104] = Except.error alreadyTakenMsg
        ∧ takenHandle.drain = Except.error alreadyTakenMsg) :=
  ⟨rfl, write_drain_fail_after_writer_taken takenHandle [104] rfl⟩

/-- C8: in `spawn_in_pty`, a provided cwd is applied to the child
command exactly when it exists and is a directory; when the check fails
the command is built without any cwd and the whole spawn proceeds
exactly as if no cwd had been provided — in particular the spawn never
fails because of the invalid cwd (the source only emits a log record). -/
theorem spawn_cwd_checked_fallback_not_error
    (cmd : String) (args : List String) (d : String)
    (env : List (String × String)) (size : PtySize) (E : SpawnEnv)
    (hbad : (E.path_exists d && E.path_is_dir d) = false) :
    (buildCommand cmd args (some d) env E).cwd = none
    ∧ (∀ d2 : String, (E.path_exists d2 && E.path_is_dir d2) = true →
        (buildCommand cmd args (some d2) env E).cwd = some d2)
    ∧ spawn_in_pty cmd args (some d) env size E
        = spawn_in_pty cmd args none env size E := by
  have hb : buildCommand cmd args (some d) env E = buildCommand cmd args none env E := by
    simp [buildCommand, hbad]
  refine ⟨by simp [buildCommand, hbad], fun d2 h2 => by simp [buildCommand, h2], ?_⟩
  unfold spawn_in_pty
  rw [hb]

/-- C8 witness: the theorem with cwd `/no/such/dir` in the environment
where no path exists; the successful spawn there matches the cwd-less
spawn. -/
theorem spawn_cwd_checked_fallback_not_error_witness :
    (buildCommand "sh" [] (some "/no/such/dir") [] noDirEnv).cwd = none
    ∧ (∀ d2 : String,
        (noDirEnv.path_exists d2 && noDirEnv.path_is_dir d2) = true →
        (buildCommand "sh" [] (some d2) [] noDirEnv).cwd = some d2)
    ∧ spawn_in_pty "sh" [] (some "/no/such/dir") [] sampleSize noDirEnv
        = spawn_in_pty "sh" [] none [] sampleSize noDirEnv :=
  spawn_cwd_checked_fallback_not_error "sh" [] "/no/such/dir" [] sampleSize noDirEnv rfl

/-- C9: resize followed by get_size round-trips: whenever
`resize(S)` succeeds on a handle, `get_size()` on the resulting handle
state returns exactly `S` — the wrapper converts the four fields to the
`portable_pty` size, the primitive stores them, and the query converts
them back unchanged. -/
theorem resize_get_size_roundtrip (h h2 : PtyHandle) (S : PtySize)
    (hr : h.resize S = Except.ok h2) :
    h2.get_size = Except.ok S := by
  unfold PtyHandle.resize MasterPty.resizeOp at hr
  by_cases hh : h.master.healthy
  · simp only [hh, if_true] at hr
    simp only [Except.ok.injEq] at hr
    subst hr
    simp [PtyHandle.get_size, MasterPty.sizeQuery, hh]
  · simp [hh] at hr

/-- C9 witness: the theorem on the healthy sample handle resized to
48 rows by 160 columns. -/
theorem resize_get_size_roundtrip_witness :
    PtyHandle.get_size
        { master :=
            { size := { rows := 48, cols := 160, pixel_width := 0, pixel_height := 0 },
              healthy := true },
          writer := some sampleWriter }
      = Except.ok { rows := 48, cols := 160, pixel_width := 0, pixel_height := 0 } :=
  resize_get_size_roundtrip sampleHandle
    { master :=
        { size := { rows := 48, cols := 160, pixel_width := 0, pixel_height := 0 },
          healthy := true },
      writer := some sampleWriter }
    { rows := 48, cols := 160, pixel_width := 0, pixel_height := 0 } rfl

/-- C10: every handle returned by a successful `spawn_in_pty` has its
writer installed, so `write` and `drain` on it can never return the
already-taken error; moreover no handle operation removes the writer
(`resize` and `write` return a handle with the writer unchanged, and
`get_size`, `try_clone_reader` and `drain` take the handle unmutated),
and the public `PtyHandle` surface of the embedding offers no writer
extraction at all. -/
theorem spawn_handle_writer_never_taken
    (cmd : String) (args : List String) (cwd : Option String)
    (env : List (String × String)) (size : PtySize) (E : SpawnEnv)
    (r : SpawnResult) (calls : List (Option Int))
    (hspawn : spawn_in_pty cmd args cwd env size E = Except.ok (r, calls)) :
    r.pty.writer.isSome = true
    ∧ (∀ buf : List Nat, r.pty.write buf ≠ Except.error alreadyTakenMsg)
    ∧ r.pty.drain ≠ Except.error alreadyTakenMsg
    ∧ (∀ (g g2 : PtyHandle) (S : PtySize),
        g.resize S = Except.ok g2 → g2.writer = g.writer)
    ∧ (∀ (g g2 : PtyHandle) (buf : List Nat) (n : Nat),
        g.write buf = Except.ok (n, g2) → g2.writer = g.writer) := by
  have hw : ∃ w, r.pty.writer = some w := by
    unfold spawn_in_pty at hspawn
    cases hopen : E.openpty_result
        { rows := size.rows, cols := size.cols,
          pixel_width := size.pixel_width, pixel_height := size.pixel_height } with
    | error e => rw [hopen] at hspawn; exact absurd hspawn (by simp)
    | ok master =>
        rw [hopen] at hspawn
        cases hcmd : E.spawn_command (buildCommand cmd args cwd env E) with
        | error e => simp only [hcmd] at hspawn; exact absurd hspawn (by simp)
        | ok child =>
            simp only [hcmd] at hspawn
            cases hwr : E.take_writer with
            | error e => rw [hwr] at hspawn; exact absurd hspawn (by simp)
            | ok w =>
                rw [hwr] at hspawn
                simp only [Except.ok.injEq, Prod.mk.injEq] at hspawn
                exact ⟨w, by rw [← hspawn.1]⟩
  obtain ⟨w, hw⟩ := hw
  refine ⟨by rw [hw]; rfl, fun buf => ?_, ?_, fun g g2 S hg => ?_, fun g g2 buf n hg => ?_⟩
  · simp only [PtyHandle.write, hw]
    cases hwr : w.write_result buf with
    | ok n => simp
    | error e => simp [alreadyTakenMsg]
  · simp only [PtyHandle.drain, hw]
    cases hfr : w.flush_result with
    | ok u => simp
    | error e => simp [alreadyTakenMsg]
  · unfold PtyHandle.resize at hg
    cases hres : g.master.resizeOp
        { rows := S.rows, cols := S.cols,
          pixel_width := S.pixel_width, pixel_height := S.pixel_height } with
    | error e => rw [hres] at hg; exact absurd hg (by simp)
    | ok m =>
        rw [hres] at hg
        simp only [Except.ok.injEq] at hg
        rw [← hg]
  · unfold PtyHandle.write at hg
    cases hgw : g.writer with
    | none => rw [hgw] at hg; exact absurd hg (by simp)
    | some w2 =>
        cases hwr : w2.write_result buf with
        | ok m =>
            simp only [hgw, hwr, Except.ok.injEq, Prod.mk.injEq] at hg
            rw [← hg.2]
            exact hgw
        | error e =>
            simp only [hgw, hwr] at hg
            exact absurd hg (by simp)

/-- C10 witness: the theorem at the all-success sample environment,
whose spawn yields the sample handle with its writer installed. -/
theorem spawn_handle_writer_never_taken_witness :
    sampleSpawnResult.pty.writer.isSome = true
    ∧ (∀ buf : List Nat, sampleSpawnResult.pty.write buf ≠ Except.error alreadyTakenMsg)
    ∧ sampleSpawnResult.pty.drain ≠ Except.error alreadyTakenMsg
    ∧ (∀ (g g2 : PtyHandle) (S : PtySize),
        g.resize S = Except.ok g2 → g2.writer = g.writer)
    ∧ (∀ (g g2 : PtyHandle) (buf : List Nat) (n : Nat),
        g.write buf = Except.ok (n, g2) → g2.writer = g.writer) :=
  spawn_handle_writer_never_taken "sh" [] none [] sampleSize sampleEnv
    sampleSpawnResult [some 0] rfl

end Zellij
